import Mathlib

/-!
Verification development for the WrenGo embedding bridge.

The Go source is shallowly embedded: Go maps become association lists with
unique keys, Go nil pointers and nil function values become `none`, and a Go
runtime panic (nil-pointer dereference) is modelled by an operation returning
`none`.  Opaque C values (native Wren handles, foreign method functions) are
modelled as natural-number identifiers.  Guest VM state touched by the slot
API is modelled explicitly in the structure `WVM`; guest behaviour that the
bridge only triggers but never observes (running a call handle) is abstracted
as a trace of invocations.
-/

namespace WrenGo

/-- Lookup in an association list; models a Go map read that distinguishes
presence from absence (the comma-ok form). -/
def assocFind {α β : Type} [DecidableEq α] : List (α × β) → α → Option β
  | [], _ => none
  | (a, b) :: t, k => if a = k then some b else assocFind t k

/-- Store into an association list, replacing the entry for an existing key or
appending a new one; models a Go map assignment. -/
def assocSet {α β : Type} [DecidableEq α] : List (α × β) → α → β → List (α × β)
  | [], k, v => [(k, v)]
  | (a, b) :: t, k, v => if a = k then (k, v) :: t else (a, b) :: assocSet t k v

/-- Remove every entry for a key from an association list; models a Go map
delete (keys are unique in a Go map, so removing all occurrences is faithful). -/
def assocErase {α β : Type} [DecidableEq α] (l : List (α × β)) (k : α) : List (α × β) :=
  l.filter (fun e => e.1 ≠ k)

/-! Binding tables, from foreign.go (src/unnamed/part_001).  `MethodMap` maps
signature strings to foreign method functions (opaque ids, `none` when the Go
function value is nil); `ClassMap` maps class names to `ForeignClass` pointers
(`none` when the stored pointer is nil); `ModuleMap` maps module names to
`Module` pointers. -/

/-- MethodMap from foreign.go: signature string to foreign method function. -/
abbrev MethodMap := List (String × Option Nat)

/-- ForeignClass from foreign.go: initializer, finalizer and method map. -/
structure ForeignClass where
  initializerId : Option Nat
  finalizerId : Option Nat
  methodMap : MethodMap
  deriving DecidableEq

/-- ClassMap from foreign.go: class name to foreign class pointer. -/
abbrev ClassMap := List (String × Option ForeignClass)

/-- Module from foreign.go (named WModule here because Module is taken by
Mathlib): it only wraps a ClassMap. -/
structure WModule where
  classMap : ClassMap
  deriving DecidableEq

/-- ModuleMap from foreign.go: module name to module pointer. -/
abbrev ModuleMap := List (String × Option WModule)

/-- MethodMap.Clone from foreign.go: copies every entry into a fresh map. -/
def MethodMap.clone (methods : MethodMap) : MethodMap :=
  methods.foldl (fun newMap e => assocSet newMap e.1 e.2) []

/-- MethodMap.Merge from foreign.go: every non-nil function of the source is
stored into the receiver under its signature. -/
def MethodMap.merge (methods source : MethodMap) : MethodMap :=
  source.foldl
    (fun acc e =>
      match e.2 with
      | none => acc
      | some f => assocSet acc e.1 (some f))
    methods

/-- NewClass from foreign.go (a nil method map is replaced by an empty one,
which in the list model is the same value). -/
def NewClass (initializerId finalizerId : Option Nat) (methods : MethodMap) : ForeignClass :=
  { initializerId := initializerId, finalizerId := finalizerId, methodMap := methods }

/-- ForeignClass.Clone from foreign.go. -/
def ForeignClass.clone (class' : ForeignClass) : ForeignClass :=
  NewClass class'.initializerId class'.finalizerId class'.methodMap.clone

/-- ClassMap.Clone from foreign.go: clones each class; cloning an entry whose
stored pointer is nil dereferences that nil pointer inside
ForeignClass.Clone, a Go panic, modelled as `none`. -/
def ClassMap.clone (classes : ClassMap) : Option ClassMap :=
  classes.foldlM
    (fun newMap e =>
      match e.2 with
      | none => none
      | some c => some (assocSet newMap e.1 (some c.clone)))
    []

/-- ClassMap.Merge from foreign.go: for each non-nil source class it merges
that method map into the receiver entry of the same name.  The receiver
entry is read with a plain map index, so a missing or nil entry is a nil
`*ForeignClass` whose MethodMap field access panics, modelled as `none`. -/
def ClassMap.merge (classes source : ClassMap) : Option ClassMap :=
  source.foldlM
    (fun acc e =>
      match e.2 with
      | none => some acc
      | some srcClass =>
        match assocFind acc e.1 with
        | none => none
        | some none => none
        | some (some recvClass) =>
          some (assocSet acc e.1
            (some { recvClass with methodMap := recvClass.methodMap.merge srcClass.methodMap })))
    classes

/-- NewModule from foreign.go: wraps a clone of the given class map. -/
def NewModule (classes : ClassMap) : Option WModule :=
  (classes.clone).map WModule.mk

/-- Module.Clone from foreign.go: NewModule applied to a clone of the class
map (the source clones twice; the second clone can no longer panic). -/
def WModule.clone (m : WModule) : Option WModule := do
  NewModule (← m.classMap.clone)

/-- ModuleMap.Clone from foreign.go: clones each module; an entry whose
stored pointer is nil panics inside Module.Clone, modelled as `none`. -/
def ModuleMap.clone (modules : ModuleMap) : Option ModuleMap :=
  modules.foldlM
    (fun newMap e =>
      match e.2 with
      | none => none
      | some m => do some (assocSet newMap e.1 (some (← m.clone))))
    []

/-- ModuleMap.Merge from foreign.go: for each non-nil source module it merges
that class map into the receiver entry of the same name.  The receiver entry
is read with a plain map index, so a missing or nil entry is a nil `*Module`
whose ClassMap field access panics, modelled as `none`. -/
def ModuleMap.merge (modules source : ModuleMap) : Option ModuleMap :=
  source.foldlM
    (fun acc e =>
      match e.2 with
      | none => some acc
      | some srcMod =>
        match assocFind acc e.1 with
        | none => none
        | some none => none
        | some (some recvMod) => do
          let newClasses ← recvMod.classMap.merge srcMod.classMap
          some (assocSet acc e.1 (some ⟨newClasses⟩)))
    modules

/-! Slot-level value marshaling, from the vm.go revision embedded in
src/README.md.  Guest values are `WrenValue`; host `interface\x7b\x7d` values that
the marshaler distinguishes are `HostValue`.  Native Wren handles are
numeric identifiers resolved through `WVM.handleTarget`; a Go-side handle
wrapper stores an optional native identifier (none once freed) and the
identity of its owning VM. -/

/-- Guest value as stored in a Wren slot.  Strings are byte lists (Wren
strings are counted byte arrays, so embedded NUL bytes and arbitrary bytes
are representable).  Numbers are the mathematical value of the guest double.
Lists, maps and foreign objects are references into the guest heap; `wfn` is
the call-handle target produced by wrenMakeCallHandle. -/
inductive WrenValue where
  | wbool (b : Bool)
  | wnum (q : ℚ)
  | wstr (bytes : List Nat)
  | wnull
  | wlist (id : Nat)
  | wmap (id : Nat)
  | wforeign (id : Nat)
  | wfn (sig : String)
  deriving DecidableEq

/-- Slot type tags, as returned by wrenGetSlotType (`tunknown` covers every
guest value that is not one of the tagged kinds, such as class objects and
call targets). -/
inductive WrenType where
  | tbool | tnum | tstr | tnull | tlist | tmap | tforeign | tunknown
  deriving DecidableEq

/-- Type tag of a guest value. -/
def WrenValue.wtype : WrenValue → WrenType
  | .wbool _ => .tbool
  | .wnum _ => .tnum
  | .wstr _ => .tstr
  | .wnull => .tnull
  | .wlist _ => .tlist
  | .wmap _ => .tmap
  | .wforeign _ => .tforeign
  | .wfn _ => .tunknown

/-- Handle wrapper from vm.go: the struct Handle with its native pointer
(none after Free) and owning VM, identified by the VM pointer value. -/
structure GoHandle where
  ptr : Option Nat
  vmId : Nat
  deriving DecidableEq

/-- CallHandle from vm.go: a receiver handle plus the handle made by
wrenMakeCallHandle. -/
structure CallHandle where
  receiver : GoHandle
  handle : GoHandle
  deriving DecidableEq

/-- Host values distinguished by setSlotValue and produced by getSlotValue.
The handle constructors are the four wrapper types; `hother` stands for any
Go value outside the supported marshaling set (its tag only distinguishes
such values from one another). -/
inductive HostValue where
  | hhandle (h : GoHandle)
  | hlist (h : GoHandle)
  | hmap (h : GoHandle)
  | hforeign (h : GoHandle)
  | hbytes (bytes : List Nat)
  | hbool (b : Bool)
  | hstr (bytes : List Nat)
  | hfloat (q : ℚ)
  | hint (n : Int)
  | huint (n : Nat)
  | hnil
  | hother (tag : Nat)
  deriving DecidableEq

/-- Errors returned by the Go bridge (the error structs of vm.go). -/
inductive GoErr where
  | nilVM
  | resultCompile
  | resultRuntime
  | nilHandle
  | keyNotExist (key : HostValue)
  | invalidKey (key : HostValue)
  | outOfBounds (index : Int)
  | invalidValue (value : HostValue)
  | nonMatchingVM
  | unexpectedValue
  deriving DecidableEq

/-- State of one VM instance together with the guest structures the slot API
touches.  `handleTarget` resolves a live native handle to the guest value it
wraps; `handles` is the VM handle registry (vm.handles); `calls` is the
trace of wrenCall invocations (guest execution itself is abstracted);
`crashed` records that a guest API assertion was violated (undefined
behaviour in the real VM). -/
structure WVM where
  id : Nat
  slots : List WrenValue
  handleTarget : List (Nat × WrenValue)
  handles : List (Option Nat × GoHandle)
  lists : List (Nat × List WrenValue)
  maps : List (Nat × List (WrenValue × WrenValue))
  nextPtr : Nat
  calls : List Nat
  crashed : Bool
  deriving DecidableEq

/-- Read a slot (callers guarantee the slot exists via wrenEnsureSlots). -/
def readSlot (vm : WVM) (slot : Nat) : WrenValue :=
  vm.slots.getD slot .wnull

/-- Write a slot in place. -/
def writeSlot (vm : WVM) (slot : Nat) (v : WrenValue) : WVM :=
  { vm with slots := vm.slots.set slot v }

/-- Record a violated guest API assertion (undefined behaviour). -/
def crash (vm : WVM) : WVM :=
  { vm with crashed := true }

/-- wrenEnsureSlots: grow the slot array to at least n slots (new slots have
unspecified contents, modelled as null); never shrinks. -/
def wrenEnsureSlots (vm : WVM) (n : Nat) : WVM :=
  if vm.slots.length < n then
    { vm with slots := vm.slots ++ List.replicate (n - vm.slots.length) .wnull }
  else vm

/-- wrenGetSlotType. -/
def wrenGetSlotType (vm : WVM) (slot : Nat) : WrenType :=
  (readSlot vm slot).wtype

/-- wrenSetSlotHandle: store the value a live native handle wraps into a
slot; a nil or stale native handle is undefined behaviour. -/
def wrenSetSlotHandle (vm : WVM) (slot : Nat) (p : Option Nat) : WVM :=
  match p with
  | none => crash vm
  | some p =>
    match assocFind vm.handleTarget p with
    | none => crash vm
    | some v => writeSlot vm slot v

/-- wrenGetSlotHandle: create a fresh native handle wrapping the value in the
slot. -/
def wrenGetSlotHandle (vm : WVM) (slot : Nat) : Nat × WVM :=
  (vm.nextPtr,
   { vm with
     nextPtr := vm.nextPtr + 1
     handleTarget := assocSet vm.handleTarget vm.nextPtr (readSlot vm slot) })

/-- VM.createHandle from vm.go: wrap a native handle and register the wrapper
in the VM handle registry keyed by the native pointer. -/
def createHandle (vm : WVM) (p : Option Nat) : GoHandle × WVM :=
  let h : GoHandle := { ptr := p, vmId := vm.id }
  (h, { vm with handles := assocSet vm.handles p h })

/-- Composite used by getSlotValue for every non-primitive slot:
wrenGetSlotHandle followed by createHandle. -/
def getSlotHandleReg (vm : WVM) (slot : Nat) : GoHandle × WVM :=
  let (p, vm) := wrenGetSlotHandle vm slot
  createHandle vm (some p)

/-- Round a natural number to 53 significant bits, ties to even; this is the
value change a C cast of an integer to double performs (exact up to 2 ^ 53). -/
def roundSig53 (a : Nat) : Nat :=
  if a ≤ 2 ^ 53 then a
  else
    let bits := Nat.log2 a + 1
    let k := bits - 53
    let q := a / 2 ^ k
    let r := a % 2 ^ k
    let half := 2 ^ (k - 1)
    let q' := if half < r ∨ (r = half ∧ q % 2 = 1) then q + 1 else q
    q' * 2 ^ k

/-- Mathematical value of the C double obtained from a Go integer
(C.double(v.Int()) and C.double(v.Uint()) in setSlotValue). -/
def intToDouble (n : Int) : ℚ :=
  if 0 ≤ n then (roundSig53 n.toNat : ℚ) else -(roundSig53 n.natAbs : ℚ)

/-- VM.setSlotValue from the vm.go revision in src/README.md: dispatch on the
host value.  Handle wrappers owned by another VM fail with NonMatchingVM
before anything reaches the guest; byte slices and strings are written as
counted byte strings; booleans, numbers and nil are written directly; any
other host value writes a guest null into the slot and returns InvalidValue. -/
def setSlotValue (vm : WVM) (value : HostValue) (slot : Nat) : Except GoErr Unit × WVM :=
  match value with
  | .hhandle h =>
    if h.vmId ≠ vm.id then (.error .nonMatchingVM, vm)
    else (.ok (), wrenSetSlotHandle vm slot h.ptr)
  | .hlist h =>
    if h.vmId ≠ vm.id then (.error .nonMatchingVM, vm)
    else (.ok (), wrenSetSlotHandle vm slot h.ptr)
  | .hmap h =>
    if h.vmId ≠ vm.id then (.error .nonMatchingVM, vm)
    else (.ok (), wrenSetSlotHandle vm slot h.ptr)
  | .hforeign h =>
    if h.vmId ≠ vm.id then (.error .nonMatchingVM, vm)
    else (.ok (), wrenSetSlotHandle vm slot h.ptr)
  | .hbytes data => (.ok (), writeSlot vm slot (.wstr data))
  | .hbool b => (.ok (), writeSlot vm slot (.wbool b))
  | .hstr data => (.ok (), writeSlot vm slot (.wstr data))
  | .hfloat q => (.ok (), writeSlot vm slot (.wnum q))
  | .hint n => (.ok (), writeSlot vm slot (.wnum (intToDouble n)))
  | .huint n => (.ok (), writeSlot vm slot (.wnum (intToDouble (n : Int))))
  | .hnil => (.ok (), writeSlot vm slot .wnull)
  | .hother tag => (.error (.invalidValue (.hother tag)), writeSlot vm slot .wnull)

/-- VM.getSlotValue from the vm.go revision in src/README.md: decode a slot
by its runtime type tag; list, map, foreign and unknown slots produce a
freshly registered handle wrapper. -/
def getSlotValue (vm : WVM) (slot : Nat) : HostValue × WVM :=
  match readSlot vm slot with
  | .wbool b => (.hbool b, vm)
  | .wnum q => (.hfloat q, vm)
  | .wforeign _ =>
    let (h, vm) := getSlotHandleReg vm slot
    (.hforeign h, vm)
  | .wlist _ =>
    let (h, vm) := getSlotHandleReg vm slot
    (.hlist h, vm)
  | .wmap _ =>
    let (h, vm) := getSlotHandleReg vm slot
    (.hmap h, vm)
  | .wnull => (.hnil, vm)
  | .wstr s => (.hstr s, vm)
  | .wfn _ =>
    let (h, vm) := getSlotHandleReg vm slot
    (.hhandle h, vm)

/-- Write then read slot 0, the round-trip of claim C2 (the write result is
discarded exactly as a caller sequencing the two slot operations would). -/
def roundTrip (vm : WVM) (v : HostValue) : HostValue :=
  let (_, vm') := setSlotValue vm v 0
  (getSlotValue vm' 0).1

/-! Handle lifecycle and the handle operations of the vm.go revision in
src/README.md.  Every operation is written against the running VM state; the
Go methods mutate the wrapper in place, which here becomes returning the
updated wrapper. -/

/-- wrenReleaseHandle: the guest releases the native handle; the wrapped
value is no longer reachable through it. -/
def wrenReleaseHandle (vm : WVM) (p : Nat) : WVM :=
  { vm with handleTarget := assocErase vm.handleTarget p }

/-- Handle.Free from vm.go: release the native handle and nil the field,
then delete the registry entry keyed by the (already nilled) field. -/
def freeHandle (vm : WVM) (h : GoHandle) : WVM × GoHandle :=
  let (vm, h) :=
    match h.ptr with
    | some p => (wrenReleaseHandle vm p, { h with ptr := none })
    | none => (vm, h)
  let vm :=
    if (assocFind vm.handles h.ptr).isSome then
      { vm with handles := assocErase vm.handles h.ptr }
    else vm
  (vm, h)

/-- wrenMakeCallHandle: a fresh native handle wrapping the call target for a
signature. -/
def wrenMakeCallHandle (vm : WVM) (sig : String) : Nat × WVM :=
  (vm.nextPtr,
   { vm with
     nextPtr := vm.nextPtr + 1
     handleTarget := assocSet vm.handleTarget vm.nextPtr (.wfn sig) })

/-- Handle.Func from vm.go (the same body serves MapHandle.Func,
ListHandle.Func and ForeignHandle.Func): nil check, then a CallHandle whose
handle is freshly made and registered. -/
def handleFunc (vm : WVM) (h : GoHandle) (sig : String) : Except GoErr CallHandle × WVM :=
  match h.ptr with
  | none => (.error .nilHandle, vm)
  | some _ =>
    let (p, vm) := wrenMakeCallHandle vm sig
    let (ch, vm) := createHandle vm (some p)
    (.ok { receiver := h, handle := ch }, vm)

/-- wrenGetMapContainsKey (map in mapSlot, key in keySlot). -/
def wrenGetMapContainsKey (vm : WVM) (mapSlot keySlot : Nat) : Bool × WVM :=
  match readSlot vm mapSlot with
  | .wmap id =>
    match assocFind vm.maps id with
    | some entries => ((assocFind entries (readSlot vm keySlot)).isSome, vm)
    | none => (false, crash vm)
  | _ => (false, crash vm)

/-- wrenGetMapValue: store the value for the key into destSlot. -/
def wrenGetMapValue (vm : WVM) (mapSlot keySlot destSlot : Nat) : WVM :=
  match readSlot vm mapSlot with
  | .wmap id =>
    match assocFind vm.maps id with
    | some entries => writeSlot vm destSlot ((assocFind entries (readSlot vm keySlot)).getD .wnull)
    | none => crash vm
  | _ => crash vm

/-- wrenSetMapValue: store the value in valSlot under the key in keySlot. -/
def wrenSetMapValue (vm : WVM) (mapSlot keySlot valSlot : Nat) : WVM :=
  match readSlot vm mapSlot with
  | .wmap id =>
    match assocFind vm.maps id with
    | some entries =>
      { vm with maps := assocSet vm.maps id (assocSet entries (readSlot vm keySlot) (readSlot vm valSlot)) }
    | none => crash vm
  | _ => crash vm

/-- wrenRemoveMapValue: remove the key, leaving the removed value (or null)
in destSlot. -/
def wrenRemoveMapValue (vm : WVM) (mapSlot keySlot destSlot : Nat) : WVM :=
  match readSlot vm mapSlot with
  | .wmap id =>
    match assocFind vm.maps id with
    | some entries =>
      let old := (assocFind entries (readSlot vm keySlot)).getD .wnull
      let vm := { vm with maps := assocSet vm.maps id (assocErase entries (readSlot vm keySlot)) }
      writeSlot vm destSlot old
    | none => crash vm
  | _ => crash vm

/-- wrenGetMapCount. -/
def wrenGetMapCount (vm : WVM) (slot : Nat) : Nat × WVM :=
  match readSlot vm slot with
  | .wmap id =>
    match assocFind vm.maps id with
    | some entries => (entries.length, vm)
    | none => (0, crash vm)
  | _ => (0, crash vm)

/-- Map keys must marshal to one of these guest types (the switch shared by
MapHandle.Get, Set, Delete and Has). -/
def primKeyType (t : WrenType) : Bool :=
  match t with
  | .tnum | .tstr | .tbool | .tnull => true
  | _ => false

/-- MapHandle.Get from the vm.go revision in src/README.md.  The results of
both setSlotValue calls are discarded, as in the source. -/
def mapGet (vm : WVM) (h : GoHandle) (key : HostValue) : Except GoErr HostValue × WVM :=
  match h.ptr with
  | none => (.error .nilHandle, vm)
  | some _ =>
    let vm := wrenEnsureSlots vm 3
    let (_, vm) := setSlotValue vm (.hhandle h) 0
    let (_, vm) := setSlotValue vm key 1
    if primKeyType (wrenGetSlotType vm 1) then
      match wrenGetMapContainsKey vm 0 1 with
      | (true, vm) =>
        let vm := wrenGetMapValue vm 0 1 2
        let (v, vm) := getSlotValue vm 2
        (.ok v, vm)
      | (false, vm) => (.error (.keyNotExist key), vm)
    else (.error (.invalidKey key), vm)

/-- MapHandle.Set from the vm.go revision in src/README.md.  The results of
all three setSlotValue calls are discarded, as in the source. -/
def mapSet (vm : WVM) (h : GoHandle) (key value : HostValue) : Except GoErr Unit × WVM :=
  match h.ptr with
  | none => (.error .nilHandle, vm)
  | some _ =>
    let vm := wrenEnsureSlots vm 3
    let (_, vm) := setSlotValue vm (.hhandle h) 0
    let (_, vm) := setSlotValue vm key 1
    if primKeyType (wrenGetSlotType vm 1) then
      let (_, vm) := setSlotValue vm value 2
      (.ok (), wrenSetMapValue vm 0 1 2)
    else (.error (.invalidKey key), vm)

/-- MapHandle.Delete from the vm.go revision in src/README.md. -/
def mapDelete (vm : WVM) (h : GoHandle) (key : HostValue) : Except GoErr HostValue × WVM :=
  match h.ptr with
  | none => (.error .nilHandle, vm)
  | some _ =>
    let vm := wrenEnsureSlots vm 3
    let (_, vm) := setSlotValue vm (.hhandle h) 0
    let (_, vm) := setSlotValue vm key 1
    if primKeyType (wrenGetSlotType vm 1) then
      let vm := wrenRemoveMapValue vm 0 1 2
      let (v, vm) := getSlotValue vm 2
      (.ok v, vm)
    else (.error (.invalidKey key), vm)

/-- MapHandle.Has from the vm.go revision in src/README.md. -/
def mapHas (vm : WVM) (h : GoHandle) (key : HostValue) : Except GoErr Bool × WVM :=
  match h.ptr with
  | none => (.error .nilHandle, vm)
  | some _ =>
    let vm := wrenEnsureSlots vm 2
    let (_, vm) := setSlotValue vm (.hhandle h) 0
    let (_, vm) := setSlotValue vm key 1
    if primKeyType (wrenGetSlotType vm 1) then
      let (b, vm) := wrenGetMapContainsKey vm 0 1
      (.ok b, vm)
    else (.error (.invalidKey key), vm)

/-- MapHandle.Count from the vm.go revision in src/README.md. -/
def mapCount (vm : WVM) (h : GoHandle) : Except GoErr Nat × WVM :=
  match h.ptr with
  | none => (.error .nilHandle, vm)
  | some _ =>
    let vm := wrenEnsureSlots vm 1
    let (_, vm) := setSlotValue vm (.hhandle h) 0
    let (n, vm) := wrenGetMapCount vm 0
    (.ok n, vm)

/-- MapHandle.Copy from the vm.go revision in src/README.md (the same body
serves ListHandle.Copy and ForeignHandle.Copy): a fresh handle to the same
guest object via slot 0. -/
def mapCopy (vm : WVM) (h : GoHandle) : Except GoErr GoHandle × WVM :=
  match h.ptr with
  | none => (.error .nilHandle, vm)
  | some _ =>
    let vm := wrenEnsureSlots vm 0
    let (_, vm) := setSlotValue vm (.hhandle h) 0
    let (nh, vm) := getSlotHandleReg vm 0
    (.ok nh, vm)

/-- wrenGetListCount of the value in a slot (asserts the slot holds a list). -/
def wrenGetListCount (vm : WVM) (slot : Nat) : Nat × WVM :=
  match readSlot vm slot with
  | .wlist id =>
    match assocFind vm.lists id with
    | some elems => (elems.length, vm)
    | none => (0, crash vm)
  | _ => (0, crash vm)

/-- wrenGetListElement: store element i of the list in listSlot into
destSlot. -/
def wrenGetListElement (vm : WVM) (listSlot : Nat) (index : Int) (destSlot : Nat) : WVM :=
  match readSlot vm listSlot with
  | .wlist id =>
    match assocFind vm.lists id with
    | some elems =>
      if 0 ≤ index ∧ index.toNat < elems.length then
        writeSlot vm destSlot (elems.getD index.toNat .wnull)
      else crash vm
    | none => crash vm
  | _ => crash vm

/-- wrenSetListElement. -/
def wrenSetListElement (vm : WVM) (listSlot : Nat) (index : Int) (valSlot : Nat) : WVM :=
  match readSlot vm listSlot with
  | .wlist id =>
    match assocFind vm.lists id with
    | some elems =>
      if 0 ≤ index ∧ index.toNat < elems.length then
        { vm with lists := assocSet vm.lists id (elems.set index.toNat (readSlot vm valSlot)) }
      else crash vm
    | none => crash vm
  | _ => crash vm

/-- wrenInsertInList (index -1 appends, as wren defines it). -/
def wrenInsertInList (vm : WVM) (listSlot : Nat) (index : Int) (valSlot : Nat) : WVM :=
  match readSlot vm listSlot with
  | .wlist id =>
    match assocFind vm.lists id with
    | some elems =>
      if index = -1 then
        { vm with lists := assocSet vm.lists id (elems ++ [readSlot vm valSlot]) }
      else if 0 ≤ index ∧ index.toNat ≤ elems.length then
        { vm with lists := assocSet vm.lists id (elems.insertIdx index.toNat (readSlot vm valSlot)) }
      else crash vm
    | none => crash vm
  | _ => crash vm

/-- ListHandle.Get from the vm.go revision in src/README.md.  The bound is
compared against wrenGetListCount whose slot argument is C.int(index) in the
source, exactly as translated here; the list itself sits in slot 0. -/
def listGet (vm : WVM) (h : GoHandle) (index : Int) : Except GoErr HostValue × WVM :=
  match h.ptr with
  | none => (.error .nilHandle, vm)
  | some _ =>
    let vm := wrenEnsureSlots vm 2
    let (_, vm) := setSlotValue vm (.hhandle h) 0
    if index < 0 then (.error (.outOfBounds index), vm)
    else
      let (count, vm) := wrenGetListCount vm index.toNat
      if (count : Int) ≤ index then (.error (.outOfBounds index), vm)
      else
        let vm := wrenGetListElement vm 0 index 1
        let (v, vm) := getSlotValue vm 1
        (.ok v, vm)

/-- ListHandle.Set from the vm.go revision in src/README.md.  The results of
both setSlotValue calls are discarded, as in the source. -/
def listSet (vm : WVM) (h : GoHandle) (index : Int) (value : HostValue) : Except GoErr Unit × WVM :=
  match h.ptr with
  | none => (.error .nilHandle, vm)
  | some _ =>
    let vm := wrenEnsureSlots vm 2
    let (_, vm) := setSlotValue vm (.hhandle h) 0
    let (_, vm) := setSlotValue vm value 1
    (.ok (), wrenSetListElement vm 0 index 1)

/-- ListHandle.Insert from the vm.go revision in src/README.md (appends). -/
def listInsert (vm : WVM) (h : GoHandle) (value : HostValue) : Except GoErr Unit × WVM :=
  match h.ptr with
  | none => (.error .nilHandle, vm)
  | some _ =>
    let vm := wrenEnsureSlots vm 2
    let (_, vm) := setSlotValue vm (.hhandle h) 0
    let (_, vm) := setSlotValue vm value 1
    (.ok (), wrenInsertInList vm 0 (-1) 1)

/-- ListHandle.Count from the vm.go revision in src/README.md (reads the
count from slot 0, where the list was just written). -/
def listCount (vm : WVM) (h : GoHandle) : Except GoErr Nat × WVM :=
  match h.ptr with
  | none => (.error .nilHandle, vm)
  | some _ =>
    let vm := wrenEnsureSlots vm 1
    let (_, vm) := setSlotValue vm (.hhandle h) 0
    let (n, vm) := wrenGetListCount vm 0
    (.ok n, vm)

/-- wrenCall: run the guest call target.  Guest execution is outside the
bridge, so it is abstracted as recording the invocation in the trace; every
claim settled here concerns paths on which the call must not happen. -/
def wrenCall (vm : WVM) (p : Nat) : Except GoErr Unit × WVM :=
  (.ok (), { vm with calls := vm.calls ++ [p] })

/-- Marshal the parameter list into slots 1.., stopping at the first error,
as the loop in CallHandle.Call does. -/
def setParams (vm : WVM) (params : List HostValue) (i : Nat) : Except GoErr Unit × WVM :=
  match params with
  | [] => (.ok (), vm)
  | p :: rest =>
    match setSlotValue vm p i with
    | (.error e, vm) => (.error e, vm)
    | (.ok (), vm) => setParams vm rest (i + 1)

/-- CallHandle.Call from the vm.go revision in src/README.md: nil check on
the call handle, marshal receiver (result discarded, as in the source) and
parameters (errors returned), run the call, read slot 0. -/
def callCall (vm : WVM) (h : CallHandle) (params : List HostValue) : Except GoErr HostValue × WVM :=
  match h.handle.ptr with
  | none => (.error .nilHandle, vm)
  | some p =>
    let vm := wrenEnsureSlots vm (params.length + 1)
    let (_, vm) := setSlotValue vm (.hhandle h.receiver) 0
    match setParams vm params 1 with
    | (.error e, vm) => (.error e, vm)
    | (.ok (), vm) =>
      match wrenCall vm p with
      | (.error e, vm) => (.error e, vm)
      | (.ok (), vm) =>
        let (v, vm) := getSlotValue vm 0
        (.ok v, vm)

/-! Write and error callback routing, from writeFn and errorFn in the vm.go
revision embedded in src/README.md.  Handlers and writers are identified by
numbers; a `none` handler or writer models the corresponding nil field. -/

/-- Where a guest-issued write or error event ends up. -/
inductive Sink where
  | handler (id : Nat)
  | writer (id : Nat)
  | suppressed
  deriving DecidableEq

/-- The routing-relevant fields of Config plus the per-VM default streams. -/
structure OutCfg where
  writeFn : Option Nat
  errorFn : Option Nat
  defaultOutput : Option Nat
  defaultError : Option Nat
  deriving DecidableEq

/-- writeFn from src/README.md: nothing happens when the VM is not
registered; otherwise the configured handler wins, else the VM default
output, else (only when no output was chosen) the process-wide default
output, else the text is dropped. -/
def writeRoute (vmFound : Bool) (cfg : Option OutCfg) (globalOutput : Option Nat) : Sink :=
  if vmFound then
    let output : Option Nat :=
      match cfg with
      | some c => if c.writeFn.isSome then none else c.defaultOutput
      | none => none
    match cfg with
    | some c =>
      match c.writeFn with
      | some f => .handler f
      | none =>
        let output := if output.isNone ∧ globalOutput.isSome then globalOutput else output
        match output with
        | some w => .writer w
        | none => .suppressed
    | none =>
      let output := if output.isNone ∧ globalOutput.isSome then globalOutput else output
      match output with
      | some w => .writer w
      | none => .suppressed
  else .suppressed

/-- errorFn from src/README.md: same shape as writeFn except that the check
on the process-wide default error stream is not guarded by output being
still unset, so a non-nil process-wide stream replaces whatever was chosen. -/
def errorRoute (vmFound : Bool) (cfg : Option OutCfg) (globalError : Option Nat) : Sink :=
  if vmFound then
    let output : Option Nat :=
      match cfg with
      | some c => if c.errorFn.isSome then none else c.defaultError
      | none => none
    match cfg with
    | some c =>
      match c.errorFn with
      | some f => .handler f
      | none =>
        let output := if globalError.isSome then globalError else output
        match output with
        | some w => .writer w
        | none => .suppressed
    | none =>
      let output := if globalError.isSome then globalError else output
      match output with
      | some w => .writer w
      | none => .suppressed
  else .suppressed

/-! Call and interpret façade.  Modelled from the spec: the running-state
guard (the `running` flag on VM, the RunningVMError returned by
InterpretString, InterpretFile and CallHandle.Call when the VM is already
running) is not present in any file under src; only the test TestNoReentry
in src/unnamed/part_003 references RunningVMError.  The state machine below
follows section 4.6 of the spec: Idle to Running on entry, back to Idle on
every exit, and an immediate ReentrantCall failure, touching nothing, when
entered while Running. -/

/-- Modelled from the spec: the per-VM façade state of section 4.6 (the
`running` flag absent from src). -/
inductive RunState where
  | idle
  | running
  deriving DecidableEq

/-- Modelled from the spec: a VM as the façade sees it, its run state plus
an abstract guest state. -/
structure FVM where
  st : RunState
  guest : Nat
  deriving DecidableEq

/-- Modelled from the spec: the distinct error kinds Interpret and Call can
produce at the façade (ReentrantCall is the RunningVMError of
TestNoReentry). -/
inductive FacadeErr where
  | reentrantCall
  | compileErr
  | runtimeErr
  deriving DecidableEq

/-- Modelled from the spec: Interpret (and Call, which has the same guard) on
the façade.  When already Running it fails immediately with ReentrantCall and
touches nothing; otherwise it transitions to Running, lets the guest run
(`body` maps guest state to guest state and the result of the run), and
returns to Idle on every exit. -/
def interpretF (vm : FVM) (body : FVM → FVM × Option FacadeErr) : Except FacadeErr Unit × FVM :=
  match vm.st with
  | .running => (.error .reentrantCall, vm)
  | .idle =>
    let (vm', res) := body { vm with st := .running }
    match res with
    | some e => (.error e, { vm' with st := .idle })
    | none => (.ok (), { vm' with st := .idle })

/-! Concrete states used by the counterexample theorems and witnesses. -/

/-- Empty receiver module map (C1 failing input). -/
def mmEmpty : ModuleMap := []

/-- Source module map binding one module with one class and one method (C1
failing input). -/
def mmSrc : ModuleMap :=
  [("mod", some ⟨[("C", some ⟨none, none, [("f()", some 0)]⟩)]⟩)]

/-- A minimal VM with one ensured slot, for exercising the slot round trip. -/
def vmRT : WVM :=
  { id := 1, slots := [.wnull], handleTarget := [], handles := [], lists := [],
    maps := [], nextPtr := 1, calls := [], crashed := false }

/-- A VM owning one registered live handle with native pointer 1. -/
def vmFree : WVM :=
  { id := 1, slots := [], handleTarget := [(1, .wnull)],
    handles := [(some 1, { ptr := some 1, vmId := 1 })], lists := [], maps := [],
    nextPtr := 2, calls := [], crashed := false }

/-- The wrapper for the registered handle of vmFree. -/
def hFree : GoHandle := { ptr := some 1, vmId := 1 }

/-- A VM (id 1) owning an empty guest map reachable through native handle 5. -/
def vmWrong : WVM :=
  { id := 1, slots := [.wnull, .wnull, .wnull], handleTarget := [(5, .wmap 10)],
    handles := [(some 5, { ptr := some 5, vmId := 1 })], lists := [],
    maps := [(10, [])], nextPtr := 6, calls := [], crashed := false }

/-- The map handle of vmWrong. -/
def mapWrongH : GoHandle := { ptr := some 5, vmId := 1 }

/-- A live handle owned by a different VM (id 2). -/
def foreignWrongH : GoHandle := { ptr := some 9, vmId := 2 }

/-- A VM owning a guest map (handle 5) and a guest list (handle 7), for the
invalid-map-key witness. -/
def vmKey : WVM :=
  { id := 1, slots := [.wnull, .wnull, .wnull],
    handleTarget := [(5, .wmap 10), (7, .wlist 20)],
    handles := [(some 5, { ptr := some 5, vmId := 1 }), (some 7, { ptr := some 7, vmId := 1 })],
    lists := [(20, [.wnum 1])], maps := [(10, [(.wstr [97], .wnum 2)])],
    nextPtr := 8, calls := [], crashed := false }

/-- The map handle of vmKey. -/
def mapKeyH : GoHandle := { ptr := some 5, vmId := 1 }

/-- The list handle of vmKey, used as an invalid map key. -/
def listKeyH : GoHandle := { ptr := some 7, vmId := 1 }

/-- A released handle owned by vmRT, for the released-handle witness. -/
def hRel : GoHandle := { ptr := none, vmId := 1 }

/-- A VM owning a three-element guest list whose first element is itself a
one-element guest list (C10 failing input). -/
def vmList : WVM :=
  { id := 1, slots := [.wnull, .wnull], handleTarget := [(5, .wlist 1)],
    handles := [(some 5, { ptr := some 5, vmId := 1 })],
    lists := [(1, [.wlist 2, .wnum 7, .wnum 8]), (2, [.wnum 42])], maps := [],
    nextPtr := 6, calls := [], crashed := false }

/-- The handle to the outer three-element list of vmList. -/
def listH : GoHandle := { ptr := some 5, vmId := 1 }

/-! Supporting lemmas. -/

theorem assocFind_assocErase_self {α β : Type} [DecidableEq α]
    (l : List (α × β)) (k : α) : assocFind (assocErase l k) k = none := by
  induction l with
  | nil => rfl
  | cons e t ih =>
    by_cases h : e.1 = k
    · simpa [assocErase, List.filter, h] using ih
    · simpa [assocErase, List.filter, h, assocFind] using ih

theorem getD_set_self {α : Type} (l : List α) (i : Nat) (x d : α) (h : i < l.length) :
    (l.set i x).getD i d = x := by
  induction l generalizing i with
  | nil => simp at h
  | cons a t ih =>
    cases i with
    | zero => rfl
    | succ n => simpa [List.getD] using ih n (by simpa using h)

theorem getD_set_ne {α : Type} (l : List α) (i j : Nat) (x d : α) (h : i ≠ j) :
    (l.set i x).getD j d = l.getD j d := by
  induction l generalizing i j with
  | nil => rfl
  | cons a t ih =>
    cases i with
    | zero =>
      cases j with
      | zero => exact absurd rfl h
      | succ m => rfl
    | succ n =>
      cases j with
      | zero => rfl
      | succ m => simpa [List.getD] using ih n m (by omega)

theorem readSlot_writeSlot_self (vm : WVM) (i : Nat) (v : WrenValue)
    (h : i < vm.slots.length) : readSlot (writeSlot vm i v) i = v :=
  getD_set_self vm.slots i v .wnull h

theorem wrenEnsureSlots_id (vm : WVM) (n : Nat) : (wrenEnsureSlots vm n).id = vm.id := by
  unfold wrenEnsureSlots; split <;> rfl

theorem wrenEnsureSlots_handleTarget (vm : WVM) (n : Nat) :
    (wrenEnsureSlots vm n).handleTarget = vm.handleTarget := by
  unfold wrenEnsureSlots; split <;> rfl

theorem wrenEnsureSlots_maps (vm : WVM) (n : Nat) :
    (wrenEnsureSlots vm n).maps = vm.maps := by
  unfold wrenEnsureSlots; split <;> rfl

theorem wrenEnsureSlots_calls (vm : WVM) (n : Nat) :
    (wrenEnsureSlots vm n).calls = vm.calls := by
  unfold wrenEnsureSlots; split <;> rfl

theorem wrenEnsureSlots_length (vm : WVM) (n : Nat) :
    n ≤ (wrenEnsureSlots vm n).slots.length := by
  unfold wrenEnsureSlots
  split
  · simp; omega
  · omega

theorem writeSlot_length (vm : WVM) (i : Nat) (v : WrenValue) :
    (writeSlot vm i v).slots.length = vm.slots.length := by
  simp [writeSlot]

theorem setSlotValue_id (vm : WVM) (v : HostValue) (slot : Nat) :
    ((setSlotValue vm v slot).2).id = vm.id := by
  unfold setSlotValue wrenSetSlotHandle writeSlot crash
  cases v <;> (repeat' split) <;> rfl

theorem setSlotValue_calls (vm : WVM) (v : HostValue) (slot : Nat) :
    ((setSlotValue vm v slot).2).calls = vm.calls := by
  unfold setSlotValue wrenSetSlotHandle writeSlot crash
  cases v <;> (repeat' split) <;> rfl

theorem intToDouble_exact (n : Int) (h : n.natAbs ≤ 2 ^ 53) : intToDouble n = (n : ℚ) := by
  unfold intToDouble roundSig53
  by_cases hn : 0 ≤ n
  · have ht : n.toNat ≤ 2 ^ 53 := by omega
    rw [if_pos hn, if_pos ht]
    have h2 : ((n.toNat : Int) : ℚ) = (n : ℚ) := by rw [Int.toNat_of_nonneg hn]
    push_cast at h2 ⊢
    exact h2
  · rw [if_neg hn, if_pos h]
    have h2 : ((n.natAbs : Int) : ℚ) = ((-n : Int) : ℚ) := by
      congr 1
      omega
    have h3 : ((n.natAbs : Nat) : ℚ) = ((n.natAbs : Int) : ℚ) :=
      (Int.cast_natCast n.natAbs).symm
    rw [h3, h2]
    push_cast
    ring

/-- C1: the claim states that for binding maps with disjoint method keys,
m1.Clone().Merge(m2) contains the union of both key sets at the module,
class and method-signature levels, and in particular that Merge completes
and adds entries of m2 even when a module or class key present in m2 is
absent from m1.  The code refutes the "in particular" part: Merge reads the
receiver entry with a plain map index and dereferences it, so a module key
present only in the source makes ModuleMap.Merge dereference a nil Module
pointer (a Go runtime panic, modelled as none), and likewise a class key at
ClassMap.Merge; such entries are never added. -/
theorem c1_merge_missing_key_panics :
    (ModuleMap.clone mmEmpty).bind (fun c => ModuleMap.merge c mmSrc) = none
    ∧ ClassMap.merge [] [("C", some ⟨none, none, [("f()", some 0)]⟩)] = none :=
  ⟨rfl, rfl⟩

/-- C2: for every supported primitive host value, writing it with
setSlotValue and reading the slot back with getSlotValue returns an equal
value: booleans, strings and nil exactly; byte slices come back as host
strings with byte-for-byte identical content (including NUL bytes, since
strings are counted byte lists here); floats exactly; signed and unsigned
integers come back as the guest double, exactly whenever the magnitude is
within the 2 ^ 53 double-precision integer range. -/
theorem c2_slot_roundtrip (vm : WVM) (hlen : 0 < vm.slots.length) :
    (∀ b, roundTrip vm (.hbool b) = .hbool b)
    ∧ (∀ s, roundTrip vm (.hstr s) = .hstr s)
    ∧ (∀ s, roundTrip vm (.hbytes s) = .hstr s)
    ∧ roundTrip vm .hnil = .hnil
    ∧ (∀ q, roundTrip vm (.hfloat q) = .hfloat q)
    ∧ (∀ n : Int, n.natAbs ≤ 2 ^ 53 → roundTrip vm (.hint n) = .hfloat (n : ℚ))
    ∧ (∀ n : Nat, n ≤ 2 ^ 53 → roundTrip vm (.huint n) = .hfloat (n : ℚ)) := by
  refine ⟨fun b => ?_, fun s => ?_, fun s => ?_, ?_, fun q => ?_, fun n hn => ?_, fun n hn => ?_⟩
  · simp [roundTrip, setSlotValue, getSlotValue, readSlot_writeSlot_self vm 0 _ hlen]
  · simp [roundTrip, setSlotValue, getSlotValue, readSlot_writeSlot_self vm 0 _ hlen]
  · simp [roundTrip, setSlotValue, getSlotValue, readSlot_writeSlot_self vm 0 _ hlen]
  · simp [roundTrip, setSlotValue, getSlotValue, readSlot_writeSlot_self vm 0 _ hlen]
  · simp [roundTrip, setSlotValue, getSlotValue, readSlot_writeSlot_self vm 0 _ hlen]
  · simp [roundTrip, setSlotValue, getSlotValue, readSlot_writeSlot_self vm 0 _ hlen,
      intToDouble_exact n hn]
  · simp [roundTrip, setSlotValue, getSlotValue, readSlot_writeSlot_self vm 0 _ hlen,
      intToDouble_exact (n : Int) (by simpa using hn)]

/-- Witness for c2_slot_roundtrip at a one-slot VM: an integer, a string
with an embedded NUL byte and a non-ASCII byte, and a byte slice. -/
theorem c2_slot_roundtrip_witness :
    roundTrip vmRT (.hint 5) = .hfloat 5
    ∧ roundTrip vmRT (.hstr [0, 200]) = .hstr [0, 200]
    ∧ roundTrip vmRT (.hbytes [0, 200]) = .hstr [0, 200] := by
  have h := c2_slot_roundtrip vmRT (by decide)
  exact ⟨h.2.2.2.2.2.1 5 (by norm_num), h.2.1 [0, 200], h.2.2.1 [0, 200]⟩

/-- C3: against the spec-modelled façade state machine, Interpret or Call on
a VM that is already Running fails immediately with the distinct
ReentrantCall error and returns the VM completely untouched; on an Idle VM
the call runs and the VM is back to Idle on every exit, even when the body
itself performed a (rejected) re-entrant call, and the VM remains usable: a
following call on the resulting state is not rejected as re-entrant. -/
theorem c3_reentrancy (vm : FVM) (body inner : FVM → FVM × Option FacadeErr)
    (g2 : FVM → FVM) :
    (vm.st = .running → interpretF vm body = (.error .reentrantCall, vm))
    ∧ (vm.st = .idle →
        (interpretF vm body).2.st = .idle
        ∧ (interpretF (interpretF vm body).2 (fun v => (g2 v, none))).1 = .ok ()
        ∧ interpretF vm (fun v => ((interpretF v inner).2, none)) = (.ok (), vm)) := by
  obtain ⟨st, g⟩ := vm
  constructor
  · intro hrun
    cases st with
    | idle => cases hrun
    | running => rfl
  · intro hidle
    cases st with
    | running => cases hidle
    | idle =>
      refine ⟨?_, ?_, ?_⟩
      · simp only [interpretF]
        obtain ⟨g', res⟩ := body { st := .running, guest := g }
        cases res <;> rfl
      · simp only [interpretF]
        obtain ⟨vm', res⟩ := body { st := .running, guest := g }
        cases res <;> rfl
      · rfl

/-- Witness for c3_reentrancy: a running VM rejects the call untouched, and
an idle VM whose body attempts a rejected re-entry still finishes Idle. -/
theorem c3_reentrancy_witness :
    interpretF { st := .running, guest := 0 } (fun v => (v, none))
      = (.error .reentrantCall, { st := .running, guest := 0 })
    ∧ interpretF { st := .idle, guest := 0 }
        (fun v => ((interpretF v (fun w => (w, none))).2, none))
      = (.ok (), { st := .idle, guest := 0 }) := by
  have h1 := c3_reentrancy { st := .running, guest := 0 }
    (fun v => (v, none)) (fun v => (v, none)) id
  have h2 := c3_reentrancy { st := .idle, guest := 0 }
    (fun v => (v, none)) (fun w => (w, none)) id
  exact ⟨h1.1 rfl, (h2.2 rfl).2.2⟩

theorem freeHandle_ptr_none (vm : WVM) (h : GoHandle) : ((freeHandle vm h).2).ptr = none := by
  obtain ⟨hp, hv⟩ := h
  cases hp <;> simp only [freeHandle]

theorem freeHandle_no_none_key (vm : WVM) (h : GoHandle) :
    assocFind ((freeHandle vm h).1).handles (none : Option Nat) = none := by
  obtain ⟨hp, hv⟩ := h
  cases hp <;>
    (simp only [freeHandle]
     split
     · exact assocFind_assocErase_self _ _
     · next hin => exact Option.not_isSome_iff_eq_none.mp hin)

/-- C4: every operation on a released handle (Func, map Get, Set, Delete,
Has, Count, Copy, list Get, Set, Insert, Count, and CallHandle.Call through
its released call handle) fails with the nil-handle (handle released) error
and leaves the VM state fully untouched, so no stale native pointer ever
reaches the guest; and releasing any handle a second time is a no-op that
changes nothing and cannot error (Free returns no error). -/
theorem c4_released_handle (vm : WVM) (h : GoHandle) (hrel : h.ptr = none) :
    (∀ sig, handleFunc vm h sig = (.error .nilHandle, vm))
    ∧ (∀ key, mapGet vm h key = (.error .nilHandle, vm))
    ∧ (∀ key value, mapSet vm h key value = (.error .nilHandle, vm))
    ∧ (∀ key, mapDelete vm h key = (.error .nilHandle, vm))
    ∧ (∀ key, mapHas vm h key = (.error .nilHandle, vm))
    ∧ mapCount vm h = (.error .nilHandle, vm)
    ∧ mapCopy vm h = (.error .nilHandle, vm)
    ∧ (∀ index, listGet vm h index = (.error .nilHandle, vm))
    ∧ (∀ index value, listSet vm h index value = (.error .nilHandle, vm))
    ∧ (∀ value, listInsert vm h value = (.error .nilHandle, vm))
    ∧ listCount vm h = (.error .nilHandle, vm)
    ∧ (∀ recv params, callCall vm { receiver := recv, handle := h } params = (.error .nilHandle, vm))
    ∧ (∀ vm0 h0, freeHandle (freeHandle vm0 h0).1 (freeHandle vm0 h0).2 = freeHandle vm0 h0) := by
  refine ⟨fun sig => ?_, fun key => ?_, fun key value => ?_, fun key => ?_, fun key => ?_,
    ?_, ?_, fun index => ?_, fun index value => ?_, fun value => ?_, ?_,
    fun recv params => ?_, fun vm0 h0 => ?_⟩
  · simp [handleFunc, hrel]
  · simp [mapGet, hrel]
  · simp [mapSet, hrel]
  · simp [mapDelete, hrel]
  · simp [mapHas, hrel]
  · simp [mapCount, hrel]
  · simp [mapCopy, hrel]
  · simp [listGet, hrel]
  · simp [listSet, hrel]
  · simp [listInsert, hrel]
  · simp [listCount, hrel]
  · simp [callCall, hrel]
  · rcases hfe : freeHandle vm0 h0 with ⟨vm1, h1⟩
    have h1ptr : h1.ptr = none := by
      have := freeHandle_ptr_none vm0 h0
      rwa [hfe] at this
    have hk : assocFind vm1.handles (none : Option Nat) = none := by
      have := freeHandle_no_none_key vm0 h0
      rwa [hfe] at this
    obtain ⟨p1, v1⟩ := h1
    simp only at h1ptr
    subst h1ptr
    simp [freeHandle, hk]

/-- Witness for c4_released_handle at a concrete released handle. -/
theorem c4_released_handle_witness :
    mapGet vmRT hRel (.hstr []) = (.error .nilHandle, vmRT)
    ∧ callCall vmRT { receiver := hRel, handle := hRel } [] = (.error .nilHandle, vmRT)
    ∧ freeHandle (freeHandle vmFree hFree).1 (freeHandle vmFree hFree).2
        = freeHandle vmFree hFree := by
  have h := c4_released_handle vmRT hRel rfl
  exact ⟨h.2.1 (.hstr []), h.2.2.2.2.2.2.2.2.2.2.2.1 hRel [], h.2.2.2.2.2.2.2.2.2.2.2.2 vmFree hFree⟩

/-- C5: the claim states that after Handle.Free returns, the VM handle
registry no longer contains an entry for the native pointer the handle
wrapped.  The code refutes this: Free nils the pointer field first and then
deletes the registry entry keyed by the already-nilled field, so the entry
for the original native pointer (pointer 1 in vmFree) is still registered
after Free. -/
theorem c5_free_leaves_registry_entry :
    (freeHandle vmFree hFree).2.ptr = none
    ∧ assocFind ((freeHandle vmFree hFree).1).handles (some 1)
        = some { ptr := some 1, vmId := 1 } :=
  ⟨rfl, rfl⟩

/-- C6 counterexample: the claim states that every marshaling attempt with a
handle of a different VM fails with the wrong-VM error, including map Set
values.  At this concrete input MapHandle.Set with a value handle owned by
VM 2 returns ok, because Set discards the setSlotValue error; the guest map
is even modified, binding the key to the stale contents of slot 2 (null
here) instead of failing. -/
theorem c6_mapSet_wrong_vm_returns_ok :
    (mapSet vmWrong mapWrongH (.hstr [107]) (.hhandle foreignWrongH)).1 = .ok ()
    ∧ assocFind ((mapSet vmWrong mapWrongH (.hstr [107]) (.hhandle foreignWrongH)).2).maps 10
        = some [(.wstr [107], .wnull)] :=
  ⟨rfl, rfl⟩

/-- C6 amended: writing a handle owned by another VM directly with
setSlotValue fails with the wrong-VM error and leaves the VM completely
untouched (the handle is never forwarded to the guest), for all four handle
wrapper kinds; and a Call argument owned by another VM makes Call fail with
the wrong-VM error without ever invoking wrenCall (the call trace is
unchanged).  The map and list operations, by contrast, discard setSlotValue
errors (see the counterexample), so there the failure is not surfaced even
though the foreign handle still never reaches a slot. -/
theorem c6_wrong_vm_guard (vm : WVM) (h : GoHandle) (hw : h.vmId ≠ vm.id) :
    (∀ slot, setSlotValue vm (.hhandle h) slot = (.error .nonMatchingVM, vm))
    ∧ (∀ slot, setSlotValue vm (.hlist h) slot = (.error .nonMatchingVM, vm))
    ∧ (∀ slot, setSlotValue vm (.hmap h) slot = (.error .nonMatchingVM, vm))
    ∧ (∀ slot, setSlotValue vm (.hforeign h) slot = (.error .nonMatchingVM, vm))
    ∧ (∀ ch p params, ch.handle.ptr = some p →
        (callCall vm ch (.hhandle h :: params)).1 = .error .nonMatchingVM
        ∧ ((callCall vm ch (.hhandle h :: params)).2).calls = vm.calls) := by
  refine ⟨fun slot => ?_, fun slot => ?_, fun slot => ?_, fun slot => ?_,
    fun ch p params hp => ?_⟩
  · simp [setSlotValue, hw]
  · simp [setSlotValue, hw]
  · simp [setSlotValue, hw]
  · simp [setSlotValue, hw]
  · rcases hsv : setSlotValue (wrenEnsureSlots vm ((.hhandle h :: params).length + 1))
        (.hhandle ch.receiver) 0 with ⟨r0, vm2⟩
    have hid2 : vm2.id = vm.id := by
      have := setSlotValue_id (wrenEnsureSlots vm ((.hhandle h :: params).length + 1))
        (.hhandle ch.receiver) 0
      rw [hsv] at this
      simpa [wrenEnsureSlots_id] using this
    have hcalls2 : vm2.calls = vm.calls := by
      have := setSlotValue_calls (wrenEnsureSlots vm ((.hhandle h :: params).length + 1))
        (.hhandle ch.receiver) 0
      rw [hsv] at this
      simpa [wrenEnsureSlots_calls] using this
    have hparams : setParams vm2 (.hhandle h :: params) 1 = (.error .nonMatchingVM, vm2) := by
      simp [setParams, setSlotValue, hid2, hw]
    constructor
    · simp only [callCall, hp, hsv, hparams]
    · simp only [callCall, hp, hsv, hparams]
      exact hcalls2

/-- Witness for c6_wrong_vm_guard: a handle of VM 2 rejected by VM 1. -/
theorem c6_wrong_vm_guard_witness :
    setSlotValue vmWrong (.hhandle foreignWrongH) 1 = (.error .nonMatchingVM, vmWrong)
    ∧ (callCall vmWrong { receiver := mapWrongH, handle := mapWrongH }
        [.hhandle foreignWrongH]).1 = .error .nonMatchingVM := by
  have h := c6_wrong_vm_guard vmWrong foreignWrongH (by decide)
  exact ⟨h.1 1, (h.2.2.2.2 { receiver := mapWrongH, handle := mapWrongH } 5 [] rfl).1⟩

/-- C7: marshaling any host value outside the supported set returns the
unsupported-value (InvalidValue) error and still writes a guest null into
the target slot, so the guest side proceeds without reading garbage. -/
theorem c7_unsupported_value (vm : WVM) (tag slot : Nat) (hs : slot < vm.slots.length) :
    (setSlotValue vm (.hother tag) slot).1 = .error (.invalidValue (.hother tag))
    ∧ readSlot ((setSlotValue vm (.hother tag) slot).2) slot = .wnull := by
  refine ⟨rfl, ?_⟩
  simpa [setSlotValue] using readSlot_writeSlot_self vm slot .wnull hs

/-- Witness for c7_unsupported_value at a one-slot VM. -/
theorem c7_unsupported_value_witness :
    (setSlotValue vmRT (.hother 0) 0).1 = .error (.invalidValue (.hother 0))
    ∧ readSlot ((setSlotValue vmRT (.hother 0) 0).2) 0 = .wnull :=
  c7_unsupported_value vmRT 0 0 (by decide)

/-- C8: on a map handle with a live underlying handle, using a key that
marshals to a guest type other than number, string, boolean or null (here:
any live same-VM handle whose target is a list, map, foreign object or
other non-primitive) makes Set fail with the invalid-map-key error with the
guest maps unmodified, and Get, Delete and Has fail with the same error
(Delete also leaving the guest maps unmodified). -/
theorem c8_invalid_map_key (vm : WVM) (h kh : GoHandle) (p mid kp : Nat)
    (t : WrenValue) (key : HostValue)
    (hp : h.ptr = some p) (hvm : h.vmId = vm.id)
    (ht : assocFind vm.handleTarget p = some (.wmap mid))
    (hkey : key = .hhandle kh ∨ key = .hlist kh ∨ key = .hmap kh ∨ key = .hforeign kh)
    (hkvm : kh.vmId = vm.id) (hkp : kh.ptr = some kp)
    (hkt : assocFind vm.handleTarget kp = some t)
    (hprim : primKeyType t.wtype = false) :
    (∀ value, (mapSet vm h key value).1 = .error (.invalidKey key)
      ∧ ((mapSet vm h key value).2).maps = vm.maps)
    ∧ (mapGet vm h key).1 = .error (.invalidKey key)
    ∧ ((mapDelete vm h key).1 = .error (.invalidKey key)
      ∧ ((mapDelete vm h key).2).maps = vm.maps)
    ∧ (mapHas vm h key).1 = .error (.invalidKey key) := by
  have hsv1 : ∀ vmx : WVM, vmx.id = vm.id → vmx.handleTarget = vm.handleTarget →
      setSlotValue vmx (.hhandle h) 0 = (.ok (), writeSlot vmx 0 (.wmap mid)) := by
    intro vmx hid hht
    simp [setSlotValue, hvm, hid, hp, wrenSetSlotHandle, hht, ht]
  have hsv2 : ∀ vmx : WVM, vmx.id = vm.id → vmx.handleTarget = vm.handleTarget →
      setSlotValue vmx key 1 = (.ok (), writeSlot vmx 1 t) := by
    intro vmx hid hht
    rcases hkey with hk | hk | hk | hk <;> subst hk <;>
      simp [setSlotValue, hkvm, hid, hkp, wrenSetSlotHandle, hht, hkt]
  have htype : ∀ n, 2 ≤ n →
      wrenGetSlotType (writeSlot (writeSlot (wrenEnsureSlots vm n) 0 (.wmap mid)) 1 t) 1
        = t.wtype := by
    intro n hn
    have hlen : 2 ≤ (wrenEnsureSlots vm n).slots.length :=
      le_trans hn (wrenEnsureSlots_length vm n)
    unfold wrenGetSlotType
    rw [readSlot_writeSlot_self]
    simp only [writeSlot]
    simpa using hlen
  refine ⟨fun value => ?_, ?_, ?_, ?_⟩
  · simp only [mapSet, hp]
    rw [hsv1 (wrenEnsureSlots vm 3) (wrenEnsureSlots_id vm 3) (wrenEnsureSlots_handleTarget vm 3)]
    simp only []
    rw [hsv2 (writeSlot (wrenEnsureSlots vm 3) 0 (.wmap mid))
      (by simp [writeSlot, wrenEnsureSlots_id])
      (by simp [writeSlot, wrenEnsureSlots_handleTarget])]
    simp only []
    rw [htype 3 (by omega), hprim]
    simp [writeSlot, wrenEnsureSlots_maps]
  · simp only [mapGet, hp]
    rw [hsv1 (wrenEnsureSlots vm 3) (wrenEnsureSlots_id vm 3) (wrenEnsureSlots_handleTarget vm 3)]
    simp only []
    rw [hsv2 (writeSlot (wrenEnsureSlots vm 3) 0 (.wmap mid))
      (by simp [writeSlot, wrenEnsureSlots_id])
      (by simp [writeSlot, wrenEnsureSlots_handleTarget])]
    simp only []
    rw [htype 3 (by omega), hprim]
    simp
  · simp only [mapDelete, hp]
    rw [hsv1 (wrenEnsureSlots vm 3) (wrenEnsureSlots_id vm 3) (wrenEnsureSlots_handleTarget vm 3)]
    simp only []
    rw [hsv2 (writeSlot (wrenEnsureSlots vm 3) 0 (.wmap mid))
      (by simp [writeSlot, wrenEnsureSlots_id])
      (by simp [writeSlot, wrenEnsureSlots_handleTarget])]
    simp only []
    rw [htype 3 (by omega), hprim]
    simp [writeSlot, wrenEnsureSlots_maps]
  · simp only [mapHas, hp]
    rw [hsv1 (wrenEnsureSlots vm 2) (wrenEnsureSlots_id vm 2) (wrenEnsureSlots_handleTarget vm 2)]
    simp only []
    rw [hsv2 (writeSlot (wrenEnsureSlots vm 2) 0 (.wmap mid))
      (by simp [writeSlot, wrenEnsureSlots_id])
      (by simp [writeSlot, wrenEnsureSlots_handleTarget])]
    simp only []
    rw [htype 2 (by omega), hprim]
    simp

/-- Witness for c8_invalid_map_key: a live list handle used as a map key on
the same VM. -/
theorem c8_invalid_map_key_witness :
    (mapSet vmKey mapKeyH (.hlist listKeyH) .hnil).1 = .error (.invalidKey (.hlist listKeyH))
    ∧ ((mapSet vmKey mapKeyH (.hlist listKeyH) .hnil).2).maps = vmKey.maps
    ∧ (mapGet vmKey mapKeyH (.hlist listKeyH)).1 = .error (.invalidKey (.hlist listKeyH)) := by
  have h := c8_invalid_map_key vmKey mapKeyH listKeyH 5 10 7 (.wlist 20) (.hlist listKeyH)
    rfl rfl rfl (Or.inr (Or.inl rfl)) rfl rfl rfl rfl
  exact ⟨(h.1 .hnil).1, (h.1 .hnil).2, h.2.1⟩

/-- C9: the claim states that both write and error callbacks are routed to
the configured handler if set, else the VM default stream if set, else the
process-wide default stream, else suppressed.  The write path obeys this
order (first conjunct: VM default stream 7 wins over process stream 99),
but the error path refutes it: with no error handler, a configured VM
default error stream 7 and process-wide stream 99, the error goes to the
process-wide stream 99, because errorFn is missing the output-still-unset
guard that writeFn has. -/
theorem c9_error_route_ignores_vm_default :
    writeRoute true
      (some { writeFn := none, errorFn := none, defaultOutput := some 7, defaultError := some 7 })
      (some 99) = .writer 7
    ∧ errorRoute true
      (some { writeFn := none, errorFn := none, defaultOutput := some 7, defaultError := some 7 })
      (some 99) = .writer 99
    ∧ writeRoute true
      (some { writeFn := some 3, errorFn := some 3, defaultOutput := some 7, defaultError := some 7 })
      (some 99) = .handler 3
    ∧ errorRoute true
      (some { writeFn := some 3, errorFn := some 3, defaultOutput := some 7, defaultError := some 7 })
      (some 99) = .handler 3
    ∧ writeRoute true
      (some { writeFn := none, errorFn := none, defaultOutput := none, defaultError := none })
      none = .suppressed
    ∧ errorRoute true
      (some { writeFn := none, errorFn := none, defaultOutput := none, defaultError := none })
      none = .suppressed :=
  ⟨rfl, rfl, rfl, rfl, rfl, rfl⟩

/-- C10: the claim states ListHandle.Get returns the out-of-bounds error
exactly when the index is negative or at least the list length, and the
element otherwise.  The code reads the length from slot index instead of
slot 0 (wrenGetListCount receives C.int(index) as the slot argument), so
after a first Get left an inner one-element list in slot 1, Get at the
valid index 1 of the three-element outer list reports OutOfBounds instead
of returning the element. -/
theorem c10_listGet_counts_wrong_slot :
    (listGet vmList listH 0).1 = .ok (.hlist { ptr := some 6, vmId := 1 })
    ∧ (assocFind ((listGet vmList listH 0).2).lists 1).map List.length = some 3
    ∧ (listGet ((listGet vmList listH 0).2) listH 1).1 = .error (.outOfBounds 1) :=
  ⟨rfl, rfl, rfl⟩

end WrenGo
